import Mathlib

/-!
# cmlbRecipes: the Cloud Functions of `cmlb-functions/functions/index.js`

A shallow embedding of the two handlers of `index.js`:

* `claudeProxy`, the HTTP relay to the chat-completion API;
* `sendDinnerSuggestion`, the hourly job that ranks the recipes, asks for a
  suggestion, pushes it to the registered devices, prunes dead tokens and
  records the send.

JavaScript strings are sequences of UTF-16 code units (`length` and `slice`
count code units), so a string is a `List Nat` of code units here.  Numbers
that the code handles (ratings, hours) are integers.  The external services
(clock, document store, chat API, push service) are explicit arguments: the
store is a value passed in and out, the chat API and the push service are
oracles that either return or throw, and every call the job makes is recorded
in a trace.  Document-store calls are taken to return normally.  The conversion
of a number to a string is the decimal numeral below 2^53 in magnitude; beyond,
where it depends on the floating-point value, it is an argument.  The option
`cors: true` of the proxy is the layer that answers an OPTIONS request before
the callback runs.
-/

namespace Cmlb

/-! ## Strings -/

/-- A JavaScript string: its UTF-16 code units. -/
abbrev JSString := List Nat

/-- UTF-16 code units of one Unicode scalar value. -/
def utf16 (c : Char) : List Nat :=
  if c.toNat < 65536 then [c.toNat]
  else [55296 + (c.toNat - 65536) / 1024, 56320 + (c.toNat - 65536) % 1024]

/-- A string literal as a JavaScript string. -/
def js (s : String) : JSString := s.toList.flatMap utf16

/-- Method `Array.prototype.join` on strings. -/
def join (sep : JSString) : List JSString → JSString
  | [] => []
  | [x] => x
  | x :: y :: rest => x ++ sep ++ join sep (y :: rest)

/-- White space and line terminators, the code units `String.prototype.trim` strips. -/
def isWhiteSpace (c : Nat) : Bool :=
  c == 9 || c == 10 || c == 11 || c == 12 || c == 13 || c == 32 || c == 160 ||
  c == 5760 || (8192 ≤ c && c ≤ 8202) || c == 8232 || c == 8233 || c == 8239 ||
  c == 8287 || c == 12288 || c == 65279

/-- Method `String.prototype.trim`. -/
def trim (s : JSString) : JSString :=
  ((s.dropWhile isWhiteSpace).reverse.dropWhile isWhiteSpace).reverse

/-- Decimal digits of `n`, most significant first, as code units; `fuel` bounds
the number of digits. -/
def decimalAux : Nat → Nat → JSString
  | 0, _ => []
  | fuel + 1, n => if n < 10 then [48 + n] else decimalAux fuel (n / 10) ++ [48 + n % 10]

/-- The decimal numeral of a natural number. -/
def decimalDigits (n : Nat) : JSString := decimalAux (n + 1) n

/-- Number-to-string conversion of an integer-valued number, as a template
literal does it. Up to `Number.MAX_SAFE_INTEGER` in magnitude the result is the
decimal numeral, with a leading `-` when negative. Beyond, the conversion
works on the floating-point value (shortest digits that read back as the same
number, exponent form from `1e+21` on); that part is the argument `big`. -/
def numberToString (big : Int → JSString) (n : Int) : JSString :=
  if n.natAbs < 2 ^ 53 then (if n < 0 then js "-" else []) ++ decimalDigits n.natAbs
  else big n

/-! ## Recipes: ranking and summary (step 6 of the job) -/

/-- A recipe document, with the fields the job reads. -/
structure Recipe where
  id : JSString
  title : JSString
  rating : Option Int
  favorite : Option Bool
  tags : Option (List JSString)
  deriving DecidableEq, Repr

/-- Truthiness of `r.favorite`. -/
def Recipe.fav (r : Recipe) : Bool := r.favorite == some true

/-- The value of `r.rating || 0`. -/
def Recipe.ratingOrZero (r : Recipe) : Int :=
  match r.rating with
  | none => 0
  | some n => if n = 0 then 0 else n

/-- The filter predicate `r => (r.rating >= 4) || r.favorite`. -/
def keep (r : Recipe) : Bool :=
  (match r.rating with
   | none => false
   | some n => decide (n ≥ 4)) || r.fav

/-- The comparator
`(a, b) => (b.favorite ? 1 : 0) - (a.favorite ? 1 : 0) || (b.rating || 0) - (a.rating || 0)`. -/
def rankCompare (a b : Recipe) : Int :=
  let f : Int := (if b.fav then 1 else 0) - (if a.fav then 1 else 0)
  if f ≠ 0 then f else b.ratingOrZero - a.ratingOrZero

/-- Insertion of `a` in front of the first element it does not have to follow. -/
def insertSorted {α : Type} (cmp : α → α → Int) (a : α) : List α → List α
  | [] => [a]
  | b :: l => if cmp a b ≤ 0 then a :: b :: l else b :: insertSorted cmp a l

/-- Method `Array.prototype.sort` with a comparator: a stable sort, here by insertion. -/
def sort {α : Type} (cmp : α → α → Int) : List α → List α
  | [] => []
  | a :: l => insertSorted cmp a (sort cmp l)

/-- Method `Array.prototype.slice(0, n)`. -/
def slice0 {α : Type} (n : Nat) (l : List α) : List α := l.take n

/-- The list `topRecipes` of the job. -/
def topRecipes (recipes : List Recipe) : List Recipe :=
  slice0 15 (sort rankCompare (recipes.filter keep))

/-- The value of `r.rating || '?'` inside the template literal. -/
def starText (big : Int → JSString) (r : Recipe) : JSString :=
  match r.rating with
  | none => js "?"
  | some n => if n = 0 then js "?" else numberToString big n

/-- The value of `r.favorite ? ', fav' : ''`. -/
def favMarker (r : Recipe) : JSString := if r.fav then js ", fav" else js ""

/-- The value of `(r.tags || []).join(', ')`. -/
def tagText (r : Recipe) : JSString := join (js ", ") (r.tags.getD [])

/-- One line of the catalog summary:
`- ${r.title} (★${r.rating || '?'}${r.favorite ? ', fav' : ''}, tags: ${(r.tags || []).join(', ')})`. -/
def summaryLine (big : Int → JSString) (r : Recipe) : JSString :=
  js "- " ++ r.title ++ js " (★" ++ starText big r ++ favMarker r ++
    js ", tags: " ++ tagText r ++ js ")"

/-- The value of `x || d` for strings: `d` when `x` is empty. -/
def orElse (x d : JSString) : JSString := if x.isEmpty then d else x

/-- The string `catalogSummary`. -/
def catalogSummary (big : Int → JSString) (top : List Recipe) : JSString :=
  orElse (join (js "\n") (top.map (summaryLine big))) (js "(none yet)")

/-- The string `allTitles`. -/
def allTitles (recipes : List Recipe) : JSString :=
  orElse (join (js ", ") (recipes.map (·.title))) (js "(none)")

/-! ## The chat-completion exchange (step 7) -/

/-- The request the job sends to the chat-completion endpoint. -/
structure ChatRequest where
  url : JSString
  apiKey : JSString
  version : JSString
  model : JSString
  max_tokens : Int
  system : JSString
  userMessage : JSString
  deriving DecidableEq, Repr

/-- A content block of the upstream response: an object whose `text`, when
present, is a string. -/
structure ContentBlock where
  text : Option JSString
  deriving DecidableEq, Repr

/-- The parsed upstream response, of the shape `{content: [{text}], ...}` that
the job reads: an object whose `content`, when present, is a list of blocks. -/
structure ChatResponse where
  content : Option (List ContentBlock)
  deriving DecidableEq, Repr

def ANTHROPIC_URL : JSString := js "https://api.anthropic.com/v1/messages"

def ANTHROPIC_VERSION : JSString := js "2023-06-01"

def systemPrompt : JSString :=
  js "You are a dinner suggestion assistant for Chris and Lindsay\x27s private recipe catalog.\nSuggest one specific dinner for tonight. Either revisit a recipe they love or propose something new that fits their taste.\nKeep it very short: one sentence for the suggestion name and one sentence explaining why it fits tonight.\nDo not include JSON or recipe tags. Be warm and direct."

/-- The string `userMessage`. -/
def userMessage (summary titles : JSString) : JSString :=
  js "Their top-rated and favorite recipes:\n" ++ summary ++
    js "\n\nAll recipe titles (for context — don\x27t just repeat these):\n" ++ titles ++
    js "\n\nWhat should they make for dinner tonight?"

/-- The request of step 7. -/
def chatRequest (big : Int → JSString) (apiKey : JSString) (recipes : List Recipe) :
    ChatRequest where
  url := ANTHROPIC_URL
  apiKey := apiKey
  version := ANTHROPIC_VERSION
  model := js "claude-haiku-4-5-20251001"
  max_tokens := 150
  system := systemPrompt
  userMessage := userMessage (catalogSummary big (topRecipes recipes)) (allTitles recipes)

/-- The value of `anthropicData.content?.[0]?.text`. -/
def firstText (data : ChatResponse) : Option JSString :=
  match data.content with
  | none => none
  | some [] => none
  | some (block :: _) => block.text

def fallbackSuggestion : JSString := js "How about revisiting one of your favorites tonight?"

/-- The string `suggestion`:
`(anthropicData.content?.[0]?.text || "").trim() || "How about revisiting ..."`. -/
def suggestion (data : ChatResponse) : JSString :=
  orElse (trim ((firstText data).getD (js ""))) fallbackSuggestion

/-! ## The push notification (step 8) -/

/-- The string `notifBody`:
`suggestion.length > 180 ? suggestion.slice(0, 177) + "..." : suggestion`. -/
def notifBody (suggestion : JSString) : JSString :=
  if suggestion.length > 180 then slice0 177 suggestion ++ js "..." else suggestion

/-- The multicast message `fcmPayload`. -/
structure FcmPayload where
  title : JSString
  body : JSString
  icon : JSString
  badge : JSString
  requireInteraction : Bool
  link : JSString
  tokens : List JSString
  deriving DecidableEq, Repr

def fcmPayload (notifBody : JSString) (tokens : List JSString) : FcmPayload where
  title := js "Tonight\x27s Dinner Idea"
  body := notifBody
  icon := js "https://cjroberts28.github.io/cmlbRecipes/favicon.svg"
  badge := js "https://cjroberts28.github.io/cmlbRecipes/favicon.svg"
  requireInteraction := false
  link := js "https://cjroberts28.github.io/cmlbRecipes/"
  tokens := tokens

/-- One entry of `fcmResponse.responses`: `success`, and the code of `error` when there is one. -/
structure SendResponse where
  success : Bool
  errorCode : Option JSString
  deriving DecidableEq, Repr

/-! ## The document store -/

/-- The document `settings/notifications`. -/
structure Settings where
  enabled : Bool
  hour : Int
  lastSent : Option JSString
  deriving DecidableEq, Repr

/-- A document of `fcm_tokens`: its id and its `token` field (which may be missing). -/
structure Device where
  id : JSString
  token : Option JSString
  deriving DecidableEq, Repr

/-- The part of the document store the job touches. -/
structure Store where
  settings : Option Settings
  fcm_tokens : List Device
  recipes : List Recipe
  deriving DecidableEq, Repr

/-- The list `tokens`: `docs.map(d => d.data().token).filter(Boolean)`. -/
def collectTokens (docs : List Device) : List JSString :=
  (docs.map (·.token)).filterMap fun t =>
    match t with
    | none => none
    | some s => if s.isEmpty then none else some s

/-- The test of step 9 on one response: a failure whose code is one of the two
codes of a dead token. -/
def isStale (resp : SendResponse) : Bool :=
  !resp.success &&
    (resp.errorCode == some (js "messaging/invalid-registration-token") ||
     resp.errorCode == some (js "messaging/registration-token-not-registered"))

/-- The loop `fcmResponse.responses.forEach((resp, idx) => ...)`, from index `idx` on. -/
def staleFrom (docs : List Device) (tokens : List JSString) :
    Nat → List SendResponse → List JSString
  | _, [] => []
  | idx, resp :: rest =>
    (if isStale resp then
      (docs.filter fun d => d.token == tokens[idx]?).map (·.id)
     else []) ++ staleFrom docs tokens (idx + 1) rest

/-- The list `staleUids` after the loop of step 9. -/
def staleUids (docs : List Device) (tokens : List JSString) (responses : List SendResponse) :
    List JSString :=
  staleFrom docs tokens 0 responses

/-- Effect of the batch of deletes on the collection. -/
def deleteDocs (docs : List Device) (uids : List JSString) : List Device :=
  docs.filter fun d => !uids.contains d.id

/-! ## The job `sendDinnerSuggestion` -/

/-- What the job sees of the outside world: the clock in America/New_York (hour
of day and `YYYY-MM-DD` date), the secret, the number-to-string conversion of
the engine beyond the safe integers, the chat API (the outer failure is
`fetch` throwing, the inner one `json()` throwing) and the push service. -/
structure Env where
  currentHour : Int
  todayStr : JSString
  apiKey : JSString
  numberToStringBig : Int → JSString
  fetch : ChatRequest → Except JSString (Except JSString ChatResponse)
  sendEachForMulticast : FcmPayload → Except JSString (List SendResponse)

/-- The calls the job makes, in order. -/
inductive Event where
  | settingsGet
  | tokensGet
  | recipesGet
  | fetch (req : ChatRequest)
  | send (payload : FcmPayload)
  | batchDelete (uids : List JSString)
  | settingsUpdate (lastSent : JSString)
  deriving DecidableEq, Repr

/-- The early returns of the job. -/
inductive Skip where
  | noSettings
  | disabled
  | hourMismatch
  | alreadySent
  | noTokensRegistered
  | noValidTokens
  | noRecipes
  deriving DecidableEq, Repr

/-- How a run ends: an early return, an exception leaving the job, or the end of the body. -/
inductive Outcome where
  | skipped (why : Skip)
  | threw (message : JSString)
  | done
  deriving DecidableEq, Repr

/-- A run: how it ended, the calls it made and the store it leaves. -/
structure Run where
  outcome : Outcome
  trace : List Event
  store : Store
  deriving DecidableEq, Repr

/-- Steps 9 and 10, after the push service has answered. -/
def afterSend (env : Env) (db : Store) (settings : Settings) (tokens : List JSString)
    (sofar : List Event) (responses : List SendResponse) : Run :=
  let stale := staleUids db.fcm_tokens tokens responses
  let updated : Settings := { settings with lastSent := some env.todayStr }
  if stale.length > 0 then
    { outcome := .done
      trace := sofar ++ [.batchDelete stale, .settingsUpdate env.todayStr]
      store := { db with fcm_tokens := deleteDocs db.fcm_tokens stale, settings := some updated } }
  else
    { outcome := .done
      trace := sofar ++ [.settingsUpdate env.todayStr]
      store := { db with settings := some updated } }

/-- Steps 6 to 10, once the guards have passed. -/
def suggestAndSend (env : Env) (db : Store) (settings : Settings) (tokens : List JSString) : Run :=
  let req := chatRequest env.numberToStringBig env.apiKey db.recipes
  let reads : List Event := [.settingsGet, .tokensGet, .recipesGet]
  match env.fetch req with
  | .error err => ⟨.threw err, reads ++ [.fetch req], db⟩
  | .ok (.error err) => ⟨.threw err, reads ++ [.fetch req], db⟩
  | .ok (.ok anthropicData) =>
    let payload := fcmPayload (notifBody (suggestion anthropicData)) tokens
    match env.sendEachForMulticast payload with
    | .error err => ⟨.threw err, reads ++ [.fetch req, .send payload], db⟩
    | .ok responses => afterSend env db settings tokens (reads ++ [.fetch req, .send payload]) responses

/-- The scheduled handler `sendDinnerSuggestion`. -/
def sendDinnerSuggestion (env : Env) (db : Store) : Run :=
  match db.settings with
  | none => ⟨.skipped .noSettings, [.settingsGet], db⟩
  | some settings =>
    if !settings.enabled then ⟨.skipped .disabled, [.settingsGet], db⟩
    else if env.currentHour ≠ settings.hour then ⟨.skipped .hourMismatch, [.settingsGet], db⟩
    else if settings.lastSent = some env.todayStr then ⟨.skipped .alreadySent, [.settingsGet], db⟩
    else if db.fcm_tokens.isEmpty then ⟨.skipped .noTokensRegistered, [.settingsGet, .tokensGet], db⟩
    else
      let tokens := collectTokens db.fcm_tokens
      if tokens.length = 0 then ⟨.skipped .noValidTokens, [.settingsGet, .tokensGet], db⟩
      else if db.recipes.length = 0 then
        ⟨.skipped .noRecipes, [.settingsGet, .tokensGet, .recipesGet], db⟩
      else suggestAndSend env db settings tokens

/-- A call that changes the store. -/
def Event.isWrite : Event → Bool
  | .batchDelete _ => true
  | .settingsUpdate _ => true
  | _ => false

/-- A call that leaves the platform: the chat API or the push service. -/
def Event.isOutbound : Event → Bool
  | .fetch _ => true
  | .send _ => true
  | _ => false

def Event.isSend : Event → Bool
  | .send _ => true
  | _ => false

/-! ## The handler `claudeProxy` -/

/-- The body of a request to the proxy, after `const { model, max_tokens, system, messages } =
req.body`: four values that are relayed as they are (`none` for a missing one). -/
structure ChatPayload (J : Type) where
  model : Option J
  max_tokens : Option J
  system : Option J
  messages : Option J

/-- An HTTP request to the proxy; `body` is `none` when `req.body` is undefined. -/
structure ProxyRequest (J : Type) where
  method : JSString
  body : Option (ChatPayload J)

/-- The request the proxy makes upstream. -/
structure Forwarded (J : Type) where
  url : JSString
  method : JSString
  contentType : JSString
  apiKey : JSString
  version : JSString
  body : ChatPayload J

/-- The body of the answer of the proxy: none at all, `{error: message}`, or the
upstream JSON. -/
inductive ProxyBody (J : Type) where
  | empty
  | error (message : JSString)
  | data (json : J)
  deriving DecidableEq

/-- The answer of the proxy and the requests it made upstream. -/
structure ProxyResult (J : Type) where
  status : Nat
  body : ProxyBody J
  forwarded : List (Forwarded J)

/-- What the proxy sees of the outside world: the secret, the upstream API (outer
failure: `fetch` throws, inner: `json()` throws) and the message of the
`TypeError` of destructuring an undefined body. -/
structure ProxyEnv (J : Type) where
  apiKey : JSString
  fetch : Forwarded J → Except JSString (Except JSString J)
  destructureMessage : JSString

/-- The upstream request of the proxy: the fixed endpoint and headers, and
`JSON.stringify({ model, max_tokens, system, messages })` as body. -/
def forward {J : Type} (env : ProxyEnv J) (payload : ChatPayload J) : Forwarded J where
  url := ANTHROPIC_URL
  method := js "POST"
  contentType := js "application/json"
  apiKey := env.apiKey
  version := ANTHROPIC_VERSION
  body := payload

/-- Upper case of a code unit, as far as it can yield a letter of `OPTIONS`: the
ASCII letters, and the two other letters whose upper case is ASCII, dotless
`ı` (to `I`) and long `ſ` (to `S`). -/
def upperUnit (c : Nat) : Nat :=
  if 97 ≤ c ∧ c ≤ 122 then c - 32 else if c = 305 then 73 else if c = 383 then 83 else c

/-- The test of the CORS layer for a preflight request:
`req.method.toUpperCase() === 'OPTIONS'`. -/
def isPreflight (method : JSString) : Bool := method.map upperUnit == js "OPTIONS"

/-- The callback passed to `onRequest`. -/
def claudeProxyHandler {J : Type} (env : ProxyEnv J) (req : ProxyRequest J) : ProxyResult J :=
  if req.method ≠ js "POST" then ⟨405, .error (js "Method not allowed"), []⟩
  else
    match req.body with
    | none => ⟨500, .error env.destructureMessage, []⟩
    | some payload =>
      match env.fetch (forward env payload) with
      | .error err => ⟨500, .error err, [forward env payload]⟩
      | .ok (.error err) => ⟨500, .error err, [forward env payload]⟩
      | .ok (.ok data) => ⟨200, .data data, [forward env payload]⟩

/-- The exported function `claudeProxy`: `onRequest` with the option
`cors: true` puts the CORS layer in front of the callback; that layer answers a
preflight request itself, with status 204 and no body, and hands every other
request to the callback. -/
def claudeProxy {J : Type} (env : ProxyEnv J) (req : ProxyRequest J) : ProxyResult J :=
  if isPreflight req.method then ⟨204, .empty, []⟩ else claudeProxyHandler env req

/-! ## Notions used to state the properties -/

/-- Favorites first, then the higher rating (a missing rating counting as 0):
the order in which `a` may stand before `b`. -/
def RanksBefore (a b : Recipe) : Prop :=
  (a.favorite = some true ∧ b.favorite ≠ some true) ∨
    (((a.favorite = some true) ↔ (b.favorite = some true)) ∧ b.rating.getD 0 ≤ a.rating.getD 0)

/-- Same favorite flag and same rating (a missing rating counting as 0). -/
def sameRank (f : Bool) (n : Int) (r : Recipe) : Bool :=
  (r.favorite == some true) == f && r.rating.getD 0 == n

/-- The star text as the specification words it: `?` for a missing rating, the
number for every rating that is present. -/
def starTextAsSpecified (big : Int → JSString) (r : Recipe) : JSString :=
  match r.rating with
  | none => js "?"
  | some n => numberToString big n

/-- All the early returns are passed: settings exist and are enabled, the hour
is the configured one, nothing was sent today, some device has a non-empty
token and the catalog is not empty. -/
def PassesGuards (env : Env) (db : Store) (settings : Settings) : Prop :=
  db.settings = some settings ∧ settings.enabled = true ∧ env.currentHour = settings.hour ∧
    settings.lastSent ≠ some env.todayStr ∧ collectTokens db.fcm_tokens ≠ [] ∧ db.recipes ≠ []

/-! ## Sample data -/

/-- A push service that reports the first of two deliveries as sent and the
second as not registered. -/
def sharedTokenEnv : Env where
  currentHour := 17
  todayStr := js "2025-03-01"
  apiKey := js "secret"
  numberToStringBig := fun _ => js "1e+21"
  fetch := fun _ => .ok (.ok { content := some [{ text := some (js "Tacos tonight.") }] })
  sendEachForMulticast := fun _ =>
    .ok [ { success := true, errorCode := none },
          { success := false, errorCode := some (js "messaging/registration-token-not-registered") } ]

/-- Two device records that hold the same token. -/
def sharedTokenStore : Store where
  settings := some { enabled := true, hour := 17, lastSent := none }
  fcm_tokens :=
    [ { id := js "u1", token := some (js "T") },
      { id := js "u2", token := some (js "T") } ]
  recipes :=
    [ { id := js "r1", title := js "Tacos", rating := some 5, favorite := none, tags := none } ]

/-- A favorite that carries the rating 0. -/
def zeroRatedFavorite : Recipe :=
  { id := js "r1", title := js "Toast", rating := some 0, favorite := some true, tags := none }

/-- A day on which the job is due: 17 h on 2025-03-01, a chat API that answers
and a push service that reports the second token as unregistered. -/
def sampleEnv : Env where
  currentHour := 17
  todayStr := js "2025-03-01"
  apiKey := js "secret"
  numberToStringBig := fun _ => js "1e+21"
  fetch := fun _ => .ok (.ok { content := some [{ text := some (js "Tacos tonight.") }] })
  sendEachForMulticast := fun _ =>
    .ok [ { success := true, errorCode := none },
          { success := false, errorCode := some (js "messaging/registration-token-not-registered") },
          { success := true, errorCode := none } ]

/-- Three devices with tokens T1, T2, T3 and a catalog of one recipe; nothing sent yet. -/
def sampleStore : Store where
  settings := some { enabled := true, hour := 17, lastSent := none }
  fcm_tokens :=
    [ { id := js "u1", token := some (js "T1") },
      { id := js "u2", token := some (js "T2") },
      { id := js "u3", token := some (js "T3") } ]
  recipes :=
    [ { id := js "r1", title := js "Tacos", rating := some 5, favorite := none, tags := none } ]

/-- A proxy environment whose upstream call fails on the network. -/
def sampleProxyEnv : ProxyEnv Nat where
  apiKey := js "secret"
  fetch := fun _ => .error (js "fetch failed")
  destructureMessage := js "Cannot destructure property"

/-! ## Ranking: the sort is a stable sort by (favorite, rating) -/

theorem ratingOrZero_eq (r : Recipe) : r.ratingOrZero = r.rating.getD 0 := by
  unfold Recipe.ratingOrZero
  cases h : r.rating with
  | none => rfl
  | some n => by_cases h0 : n = 0 <;> simp [h0]

theorem fav_eq_true_iff (r : Recipe) : r.fav = true ↔ r.favorite = some true := by
  simp [Recipe.fav]

theorem rankCompare_le_iff (a b : Recipe) : rankCompare a b ≤ 0 ↔ RanksBefore a b := by
  unfold rankCompare RanksBefore
  rw [ratingOrZero_eq, ratingOrZero_eq]
  by_cases ha : a.favorite = some true <;> by_cases hb : b.favorite = some true <;>
    simp [Recipe.fav, ha, hb]

theorem ranksBefore_total (a b : Recipe) : RanksBefore a b ∨ RanksBefore b a := by
  unfold RanksBefore
  by_cases ha : a.favorite = some true <;> by_cases hb : b.favorite = some true <;>
    simp [ha, hb] <;> omega

theorem ranksBefore_trans {a b c : Recipe} (hab : RanksBefore a b) (hbc : RanksBefore b c) :
    RanksBefore a c := by
  unfold RanksBefore at *
  by_cases ha : a.favorite = some true <;> by_cases hb : b.favorite = some true <;>
    by_cases hc : c.favorite = some true <;> simp [ha, hb, hc] at hab hbc ⊢ <;> omega

theorem insertSorted_perm {α : Type} (cmp : α → α → Int) (a : α) (l : List α) :
    (insertSorted cmp a l).Perm (a :: l) := by
  induction l with
  | nil => exact List.Perm.refl _
  | cons b l ih =>
    unfold insertSorted
    split
    · exact List.Perm.refl _
    · exact (List.Perm.cons b ih).trans (List.Perm.swap a b l)

theorem sort_perm {α : Type} (cmp : α → α → Int) (l : List α) : (sort cmp l).Perm l := by
  induction l with
  | nil => exact List.Perm.refl _
  | cons a l ih =>
    exact (insertSorted_perm cmp a (sort cmp l)).trans (List.Perm.cons a ih)

theorem insertSorted_pairwise {α : Type} (cmp : α → α → Int)
    (total : ∀ a b, cmp a b ≤ 0 ∨ cmp b a ≤ 0)
    (trans : ∀ a b c, cmp a b ≤ 0 → cmp b c ≤ 0 → cmp a c ≤ 0)
    (a : α) (l : List α) (hl : l.Pairwise fun x y => cmp x y ≤ 0) :
    (insertSorted cmp a l).Pairwise fun x y => cmp x y ≤ 0 := by
  induction l with
  | nil => simp [insertSorted]
  | cons b l ih =>
    rw [List.pairwise_cons] at hl
    unfold insertSorted
    split
    · rename_i hab
      refine List.Pairwise.cons ?_ (List.Pairwise.cons hl.1 hl.2)
      intro y hy
      rcases List.mem_cons.mp hy with rfl | hy
      · exact hab
      · exact trans a b y hab (hl.1 y hy)
    · rename_i hab
      have hba : cmp b a ≤ 0 := (total a b).resolve_left hab
      refine List.Pairwise.cons ?_ (ih hl.2)
      intro y hy
      rcases List.mem_cons.mp ((insertSorted_perm cmp a l).subset hy) with rfl | hy
      · exact hba
      · exact hl.1 y hy

theorem sort_pairwise {α : Type} (cmp : α → α → Int)
    (total : ∀ a b, cmp a b ≤ 0 ∨ cmp b a ≤ 0)
    (trans : ∀ a b c, cmp a b ≤ 0 → cmp b c ≤ 0 → cmp a c ≤ 0) (l : List α) :
    (sort cmp l).Pairwise fun x y => cmp x y ≤ 0 := by
  induction l with
  | nil => simp [sort]
  | cons a l ih => exact insertSorted_pairwise cmp total trans a _ ih

/-- Inserting does not reorder a class of mutually tied elements. -/
theorem filter_insertSorted {α : Type} (cmp : α → α → Int) (p : α → Bool)
    (tied : ∀ a b, p a = true → p b = true → cmp a b ≤ 0) (a : α) (l : List α) :
    (insertSorted cmp a l).filter p = (a :: l).filter p := by
  induction l with
  | nil => rfl
  | cons b l ih =>
    unfold insertSorted
    split
    · rfl
    · rename_i hab
      by_cases hpa : p a = true
      · have hpb : p b = false := by
          cases hb : p b with
          | false => rfl
          | true => exact absurd (tied a b hpa hb) hab
        rw [List.filter_cons_of_neg (by simp [hpb]), ih]
        simp [List.filter_cons, hpa, hpb]
      · rw [List.filter_cons, ih]
        simp [List.filter_cons, hpa]

/-- Stability: each class of mutually tied elements keeps its input order. -/
theorem filter_sort {α : Type} (cmp : α → α → Int) (p : α → Bool)
    (tied : ∀ a b, p a = true → p b = true → cmp a b ≤ 0) (l : List α) :
    (sort cmp l).filter p = l.filter p := by
  induction l with
  | nil => rfl
  | cons a l ih =>
    show (insertSorted cmp a (sort cmp l)).filter p = _
    rw [filter_insertSorted cmp p tied, List.filter_cons, List.filter_cons, ih]

theorem sameRank_tied (f : Bool) (n : Int) (a b : Recipe)
    (ha : sameRank f n a = true) (hb : sameRank f n b = true) : rankCompare a b ≤ 0 := by
  rw [rankCompare_le_iff]
  unfold sameRank at ha hb
  unfold RanksBefore
  simp only [Bool.and_eq_true, beq_iff_eq] at ha hb
  right
  constructor
  · have h1 := ha.1
    have h2 := hb.1
    cases f <;> simp_all
  · omega

/-- C1. The list `topRecipes` is the first 15 entries of a list `ranked` that
holds exactly the recipes with rating at least 4 or marked favorite (each as
often as in the catalog), is ordered favorites first and then by descending
rating (a missing rating counting as 0), and keeps the recipes of equal
favorite flag and rating in catalog order; and for A (rating 5), B (favorite,
rating 2), C (rating 4) the titles of the top list are B, A, C. -/
theorem topRecipes_ranked :
    (∀ recipes : List Recipe, ∃ ranked : List Recipe,
      topRecipes recipes = ranked.take 15 ∧
      (∀ r, keep r = true ↔ (∃ n, r.rating = some n ∧ 4 ≤ n) ∨ r.favorite = some true) ∧
      ranked.Perm (recipes.filter keep) ∧
      ranked.Pairwise RanksBefore ∧
      (∀ f n, ranked.filter (sameRank f n) = (recipes.filter keep).filter (sameRank f n))) ∧
    (topRecipes
        [ { id := js "a", title := js "A", rating := some 5, favorite := none, tags := none },
          { id := js "b", title := js "B", rating := some 2, favorite := some true, tags := none },
          { id := js "c", title := js "C", rating := some 4, favorite := none, tags := none } ]).map
      (·.title) = [js "B", js "A", js "C"] := by
  refine ⟨fun recipes => ⟨sort rankCompare (recipes.filter keep), rfl, ?_, ?_, ?_, ?_⟩, by decide⟩
  · intro r
    unfold keep
    rw [Bool.or_eq_true, fav_eq_true_iff]
    cases h : r.rating <;> simp
  · exact sort_perm _ _
  · have h := sort_pairwise rankCompare
      (fun a b => by
        rw [rankCompare_le_iff, rankCompare_le_iff]; exact ranksBefore_total a b)
      (fun a b c hab hbc => by
        rw [rankCompare_le_iff] at *; exact ranksBefore_trans hab hbc)
      (recipes.filter keep)
    exact h.imp fun {a b} hab => (rankCompare_le_iff a b).mp hab
  · intro f n
    exact filter_sort rankCompare (sameRank f n) (sameRank_tied f n) _

/-! ## Trimming, the suggestion and the notification body -/

theorem trim_eq_nil_iff (t : JSString) : trim t = [] ↔ ∀ c ∈ t, isWhiteSpace c = true := by
  unfold trim
  rw [List.reverse_eq_nil_iff, List.dropWhile_eq_nil_iff]
  constructor
  · intro h
    have hd : ∀ c ∈ t.dropWhile isWhiteSpace, isWhiteSpace c = true :=
      fun c hc => h c (List.mem_reverse.mpr hc)
    have hnil : t.dropWhile isWhiteSpace = [] := by
      have hh := List.head?_dropWhile_not isWhiteSpace t
      cases hlist : t.dropWhile isWhiteSpace with
      | nil => rfl
      | cons x xs =>
        rw [hlist] at hh hd
        simp only [List.head?_cons] at hh
        have := hd x (List.mem_cons_self x xs)
        simp [hh] at this
    exact List.dropWhile_eq_nil_iff.mp hnil
  · intro h c hc
    have hnil : t.dropWhile isWhiteSpace = [] := List.dropWhile_eq_nil_iff.mpr h
    rw [hnil] at hc
    simp at hc

/-- The string `trim t` is `t` without a leading and a trailing run of white
space, and it neither starts nor ends with white space. -/
theorem trim_decomp (t : JSString) :
    ∃ pre post : JSString, t = pre ++ trim t ++ post ∧
      (∀ c ∈ pre, isWhiteSpace c = true) ∧ (∀ c ∈ post, isWhiteSpace c = true) ∧
      (∀ c, (trim t).head? = some c → isWhiteSpace c = false) ∧
      (∀ c, (trim t).getLast? = some c → isWhiteSpace c = false) := by
  have hd : t.dropWhile isWhiteSpace =
      trim t ++ ((t.dropWhile isWhiteSpace).reverse.takeWhile isWhiteSpace).reverse := by
    unfold trim
    rw [← List.reverse_append, List.takeWhile_append_dropWhile, List.reverse_reverse]
  have hlast : ∀ c, (trim t).getLast? = some c → isWhiteSpace c = false := by
    intro c hc
    unfold trim at hc
    rw [List.getLast?_reverse] at hc
    have hh := List.head?_dropWhile_not isWhiteSpace (t.dropWhile isWhiteSpace).reverse
    rw [hc] at hh
    exact hh
  refine ⟨t.takeWhile isWhiteSpace,
    ((t.dropWhile isWhiteSpace).reverse.takeWhile isWhiteSpace).reverse, ?_, ?_, ?_, ?_, hlast⟩
  · rw [List.append_assoc, ← hd, List.takeWhile_append_dropWhile]
  · intro c hc
    exact List.mem_takeWhile_imp hc
  · intro c hc
    exact List.mem_takeWhile_imp (List.mem_reverse.mp hc)
  · intro c hc
    have hh := List.head?_dropWhile_not isWhiteSpace t
    rw [hd, List.head?_append, hc] at hh
    simpa using hh

/-- C5. A suggestion longer than 180 code units becomes its first 177 code units
followed by the three-unit ellipsis `...`, 180 in all; a suggestion of at most
180 is left unchanged; the body never exceeds 180. -/
theorem notifBody_truncates (s : JSString) :
    (180 < s.length → notifBody s = s.take 177 ++ js "..." ∧ (notifBody s).length = 180) ∧
    (s.length ≤ 180 → notifBody s = s) ∧
    (notifBody s).length ≤ 180 ∧
    ∀ tokens, (fcmPayload (notifBody s) tokens).body = notifBody s := by
  have hdots : (js "...").length = 3 := by decide
  unfold notifBody slice0
  refine ⟨?_, ?_, ?_, fun _ => rfl⟩
  · intro h
    rw [if_pos h]
    refine ⟨rfl, ?_⟩
    rw [List.length_append, List.length_take, hdots]
    omega
  · intro h
    rw [if_neg (by omega)]
  · split
    · rw [List.length_append, List.length_take, hdots]
      omega
    · omega

theorem notifBody_truncates_witness :
    180 < (List.replicate 200 97).length ∧
      notifBody (List.replicate 200 97) = (List.replicate 200 97).take 177 ++ js "..." ∧
      (notifBody (List.replicate 200 97)).length = 180 :=
  ⟨by rw [List.length_replicate]; omega,
   (notifBody_truncates (List.replicate 200 97)).1 (by rw [List.length_replicate]; omega)⟩

/-- C7. When the response has no content list, an empty content list, a first
block without text, or a first block whose text is empty or only white space,
the suggestion is the fixed fallback sentence; otherwise it is the text of the
first block with its leading and trailing white space removed. -/
theorem suggestion_fallback (data : ChatResponse) :
    (data.content = none →
      suggestion data = js "How about revisiting one of your favorites tonight?") ∧
    (data.content = some [] →
      suggestion data = js "How about revisiting one of your favorites tonight?") ∧
    (∀ block rest, data.content = some (block :: rest) → block.text = none →
      suggestion data = js "How about revisiting one of your favorites tonight?") ∧
    (∀ block rest t, data.content = some (block :: rest) → block.text = some t →
      (∀ c ∈ t, isWhiteSpace c = true) →
      suggestion data = js "How about revisiting one of your favorites tonight?") ∧
    (∀ block rest t, data.content = some (block :: rest) → block.text = some t →
      (∃ c ∈ t, isWhiteSpace c = false) →
      suggestion data = trim t ∧ trim t ≠ [] ∧
      ∃ pre post : JSString, t = pre ++ suggestion data ++ post ∧
        (∀ c ∈ pre, isWhiteSpace c = true) ∧ (∀ c ∈ post, isWhiteSpace c = true) ∧
        (∀ c, (suggestion data).head? = some c → isWhiteSpace c = false) ∧
        (∀ c, (suggestion data).getLast? = some c → isWhiteSpace c = false)) := by
  have hnil : trim [] = [] := rfl
  refine ⟨?_, ?_, ?_, ?_, ?_⟩
  · intro h
    simp [suggestion, firstText, h, orElse, js, hnil, fallbackSuggestion]
  · intro h
    simp [suggestion, firstText, h, orElse, js, hnil, fallbackSuggestion]
  · intro block rest h ht
    simp [suggestion, firstText, h, ht, orElse, js, hnil, fallbackSuggestion]
  · intro block rest t h ht hws
    have := (trim_eq_nil_iff t).mpr hws
    simp [suggestion, firstText, h, ht, orElse, this, fallbackSuggestion]
  · intro block rest t h ht hex
    have hne : trim t ≠ [] := by
      intro hnil
      obtain ⟨c, hc, hcw⟩ := hex
      have := (trim_eq_nil_iff t).mp hnil c hc
      simp [hcw] at this
    have hs : suggestion data = trim t := by
      simp [suggestion, firstText, h, ht, orElse, hne]
    rw [hs]
    exact ⟨rfl, hne, trim_decomp t⟩

theorem suggestion_fallback_witness :
    suggestion { content := some [{ text := some (js "  \n") }, { text := some (js "Tacos") }] } =
        js "How about revisiting one of your favorites tonight?" ∧
      suggestion { content := some [{ text := some (js " Tacos tonight.\n") }] } =
        js "Tacos tonight." :=
  ⟨(suggestion_fallback _).2.2.2.1 _ _ _ rfl rfl (by decide),
   ((suggestion_fallback _).2.2.2.2 _ _ _ rfl rfl (by decide)).1.trans (by decide)⟩

/-! ## The catalog summary line -/

theorem decimalAux_eq : ∀ (fuel n : Nat), n < fuel →
    decimalAux fuel n =
      if n = 0 then [48] else ((Nat.digits 10 n).reverse).map (48 + ·)
  | 0, n, h => absurd h (Nat.not_lt_zero n)
  | fuel + 1, n, h => by
    unfold decimalAux
    by_cases hlt : n < 10
    · rw [if_pos hlt]
      by_cases h0 : n = 0
      · simp [h0]
      · rw [if_neg h0, Nat.digits_of_lt 10 n h0 hlt]
        rfl
    · have hpos : 0 < n := by omega
      have hq : n / 10 ≠ 0 := by omega
      rw [if_neg hlt, if_neg (by omega), decimalAux_eq fuel (n / 10) (by omega), if_neg hq,
        Nat.digits_def' (by decide) hpos]
      simp

theorem decimalDigits_eq (n : Nat) :
    decimalDigits n = if n = 0 then [48] else ((Nat.digits 10 n).reverse).map (48 + ·) :=
  decimalAux_eq (n + 1) n (Nat.lt_succ_self n)

/-- The decimal numeral of a positive number consists of digits, does not start
with the digit 0, and reads back as the number. -/
theorem decimalDigits_spec (m : Nat) (hm : m ≠ 0) :
    (∀ c ∈ decimalDigits m, 48 ≤ c ∧ c ≤ 57) ∧
    (decimalDigits m).head? ≠ some 48 ∧
    Nat.ofDigits 10 (((decimalDigits m).map (· - 48)).reverse) = m := by
  rw [decimalDigits_eq, if_neg hm]
  refine ⟨?_, ?_, ?_⟩
  · intro c hc
    obtain ⟨d, hd, rfl⟩ := List.mem_map.mp hc
    have := Nat.digits_lt_base (by decide : 1 < 10) (List.mem_reverse.mp hd)
    omega
  · intro hhead
    have hne : Nat.digits 10 m ≠ [] := Nat.digits_ne_nil_iff_ne_zero.mpr hm
    have hlast := Nat.getLast_digit_ne_zero 10 hm
    rw [List.head?_map, List.head?_reverse, List.getLast?_eq_getLast _ hne] at hhead
    simp only [Option.map_some', Option.some.injEq] at hhead
    omega
  · have hmap : (List.map (· - 48) (List.map (48 + ·) (Nat.digits 10 m).reverse)) =
        (Nat.digits 10 m).reverse := by
      rw [List.map_map]
      conv_rhs => rw [← List.map_id (Nat.digits 10 m).reverse]
      apply List.map_congr_left
      intro d _
      simp
    rw [hmap, List.reverse_reverse, Nat.ofDigits_digits]

/-- C8, as stated, fails: a favorite with rating 0 is kept, it has a rating, and
its line shows `?` where the number 0 was promised; the digit 0 occurs nowhere
in the line. -/
theorem summaryLine_zero_rating_shows_question_mark :
    topRecipes [zeroRatedFavorite] = [zeroRatedFavorite] ∧
    zeroRatedFavorite.rating = some 0 ∧
    summaryLine sampleEnv.numberToStringBig zeroRatedFavorite = js "- Toast (★?, fav, tags: )" ∧
    starText sampleEnv.numberToStringBig zeroRatedFavorite ≠
      starTextAsSpecified sampleEnv.numberToStringBig zeroRatedFavorite ∧
    numberToString sampleEnv.numberToStringBig 0 = js "0" ∧
    ¬ (js "0" <:+: summaryLine sampleEnv.numberToStringBig zeroRatedFavorite) := by
  decide

/-- C8, amended. The summary line of a recipe is `- `, the title, ` (★`, the star
text, the marker, `, tags: `, the tag text and `)`. The star text is `?` when
the rating is absent or 0, and the number of the rating, as the engine converts
numbers to strings, for every other rating: below 2^53 in magnitude that is
the decimal numeral (digits only, no leading 0, reading back as the magnitude),
after a `-` for a negative rating. The marker is `, fav` exactly when the recipe
is a favorite, and the tag text is the tags joined by `, `, empty when tags are
absent. -/
theorem summaryLine_fields (big : Int → JSString) (r : Recipe) :
    summaryLine big r =
      js "- " ++ r.title ++ js " (★" ++ starText big r ++ favMarker r ++ js ", tags: " ++
        tagText r ++ js ")" ∧
    (r.rating = none ∨ r.rating = some 0 → starText big r = js "?") ∧
    (∀ n, r.rating = some n → n ≠ 0 →
      starText big r = numberToString big n ∧
      (n.natAbs < 2 ^ 53 →
        ∃ digits : JSString,
          numberToString big n = (if n < 0 then js "-" else []) ++ digits ∧
          (∀ c ∈ digits, 48 ≤ c ∧ c ≤ 57) ∧ digits.head? ≠ some 48 ∧
          Nat.ofDigits 10 ((digits.map (· - 48)).reverse) = n.natAbs)) ∧
    (r.favorite = some true → favMarker r = js ", fav") ∧
    (r.favorite ≠ some true → favMarker r = []) ∧
    (r.tags = none → tagText r = []) ∧
    (∀ tags, r.tags = some tags → tagText r = join (js ", ") tags) := by
  refine ⟨rfl, ?_, ?_, ?_, ?_, ?_, ?_⟩
  · rintro (h | h) <;> simp [starText, h]
  · intro n hn h0
    refine ⟨by simp [starText, hn, h0], fun hsafe => ?_⟩
    have hm : n.natAbs ≠ 0 := by omega
    obtain ⟨h1, h2, h3⟩ := decimalDigits_spec n.natAbs hm
    exact ⟨decimalDigits n.natAbs, by simp only [numberToString, if_pos hsafe], h1, h2, h3⟩
  · intro h
    simp [favMarker, Recipe.fav, h]
  · intro h
    simp only [favMarker, Recipe.fav, beq_iff_eq, h, if_false]
    rfl
  · intro h
    simp [tagText, h, join]
  · intro tags h
    simp [tagText, h]

theorem summaryLine_fields_witness :
    starText sampleEnv.numberToStringBig
        { id := js "r1", title := js "Tacos", rating := some 5, favorite := none, tags := none } =
      numberToString sampleEnv.numberToStringBig 5 ∧
    summaryLine sampleEnv.numberToStringBig
        { id := js "r1", title := js "Tacos", rating := some 5, favorite := none, tags := none } =
      js "- Tacos (★5, tags: )" :=
  ⟨((summaryLine_fields sampleEnv.numberToStringBig
      { id := js "r1", title := js "Tacos", rating := some 5, favorite := none, tags := none }).2.2.1
      5 rfl (by decide)).1, by decide⟩

/-! ## The job: guards, failures, pruning, idempotence -/

theorem collectTokens_nil : collectTokens [] = [] := rfl

theorem run_of_guards {env : Env} {db : Store} {settings : Settings}
    (h : PassesGuards env db settings) :
    sendDinnerSuggestion env db = suggestAndSend env db settings (collectTokens db.fcm_tokens) := by
  obtain ⟨hs, hen, hh, hl, ht, hr⟩ := h
  have hdocs : db.fcm_tokens ≠ [] := by
    intro hnil
    rw [hnil] at ht
    exact ht collectTokens_nil
  unfold sendDinnerSuggestion
  simp [hs, hen, hh, hl, ht, hr, hdocs]

theorem afterSend_outcome (env : Env) (db : Store) (settings : Settings) (tokens : List JSString)
    (sofar : List Event) (responses : List SendResponse) :
    (afterSend env db settings tokens sofar responses).outcome = .done := by
  by_cases h : (staleUids db.fcm_tokens tokens responses).length > 0 <;> simp [afterSend, h]

theorem afterSend_settings (env : Env) (db : Store) (settings : Settings) (tokens : List JSString)
    (sofar : List Event) (responses : List SendResponse) :
    (afterSend env db settings tokens sofar responses).store.settings =
      some { settings with lastSent := some env.todayStr } := by
  by_cases h : (staleUids db.fcm_tokens tokens responses).length > 0 <;> simp [afterSend, h]

theorem afterSend_recipes (env : Env) (db : Store) (settings : Settings) (tokens : List JSString)
    (sofar : List Event) (responses : List SendResponse) :
    (afterSend env db settings tokens sofar responses).store.recipes = db.recipes := by
  by_cases h : (staleUids db.fcm_tokens tokens responses).length > 0 <;> simp [afterSend, h]

theorem deleteDocs_nil (docs : List Device) : deleteDocs docs [] = docs := by
  simp [deleteDocs]

theorem afterSend_devices (env : Env) (db : Store) (settings : Settings) (tokens : List JSString)
    (sofar : List Event) (responses : List SendResponse) :
    (afterSend env db settings tokens sofar responses).store.fcm_tokens =
      deleteDocs db.fcm_tokens (staleUids db.fcm_tokens tokens responses) := by
  by_cases h : (staleUids db.fcm_tokens tokens responses).length > 0
  · simp [afterSend, h]
  · have hnil : staleUids db.fcm_tokens tokens responses = [] := by
      cases hst : staleUids db.fcm_tokens tokens responses with
      | nil => rfl
      | cons a l => simp [hst] at h
    simp [afterSend, hnil, deleteDocs_nil]

theorem afterSend_sends (env : Env) (db : Store) (settings : Settings) (tokens : List JSString)
    (sofar : List Event) (responses : List SendResponse) :
    ((afterSend env db settings tokens sofar responses).trace.filter Event.isSend).length =
      (sofar.filter Event.isSend).length := by
  by_cases h : (staleUids db.fcm_tokens tokens responses).length > 0 <;>
    simp [afterSend, h, Event.isSend]

/-- A run on settings that fail one of the three guards reads the settings and returns. -/
theorem skip_of_guard (env : Env) (db : Store) (settings : Settings)
    (hs : db.settings = some settings)
    (h : settings.enabled = false ∨ env.currentHour ≠ settings.hour ∨
      settings.lastSent = some env.todayStr) :
    (sendDinnerSuggestion env db).trace = [Event.settingsGet] ∧
    (sendDinnerSuggestion env db).store = db ∧
    (∃ why, (sendDinnerSuggestion env db).outcome = .skipped why) := by
  unfold sendDinnerSuggestion
  simp only [hs]
  by_cases h1 : settings.enabled = true
  · by_cases h2 : env.currentHour = settings.hour
    · have h3 : settings.lastSent = some env.todayStr := by
        rcases h with h | h | h
        · simp [h1] at h
        · exact absurd h2 h
        · exact h
      simp [h1, h2, h3]
    · simp [h1, h2]
  · simp [h1]

theorem settingsGet_only {trace : List Event} (h : trace = [Event.settingsGet]) :
    ∀ e ∈ trace, e.isWrite = false ∧ e.isOutbound = false := by
  intro e he
  rw [h] at he
  simp only [List.mem_singleton] at he
  subst he
  exact ⟨rfl, rfl⟩

/-- C3. With settings that are disabled, or configured for another hour than the
current one, or whose `lastSent` is today (whatever the other fields), a run
reads the settings and does nothing else: no other read, no call to the chat
API or the push service, no write, and the store is left as it was. -/
theorem guards_noop (env : Env) (db : Store) (settings : Settings)
    (hs : db.settings = some settings)
    (h : settings.enabled = false ∨ env.currentHour ≠ settings.hour ∨
      settings.lastSent = some env.todayStr) :
    (sendDinnerSuggestion env db).trace = [Event.settingsGet] ∧
    (sendDinnerSuggestion env db).store = db ∧
    (∃ why, (sendDinnerSuggestion env db).outcome = .skipped why) ∧
    (∀ e ∈ (sendDinnerSuggestion env db).trace, e.isWrite = false ∧ e.isOutbound = false) := by
  have key := skip_of_guard env db settings hs h
  exact ⟨key.1, key.2.1, key.2.2, settingsGet_only key.1⟩

theorem guards_noop_witness :
    (sendDinnerSuggestion sampleEnv
        { sampleStore with
          settings := some { enabled := true, hour := 17, lastSent := some (js "2025-03-01") } }).trace =
      [Event.settingsGet] :=
  (guards_noop sampleEnv _ { enabled := true, hour := 17, lastSent := some (js "2025-03-01") } rfl
    (Or.inr (Or.inr rfl))).1

theorem sampleGuards : PassesGuards sampleEnv sampleStore
    { enabled := true, hour := 17, lastSent := none } := by
  refine ⟨rfl, rfl, rfl, ?_, ?_, ?_⟩ <;> decide

/-- C6. In a run that passes the guards, when the chat call throws (the request
itself or the parsing of its answer) or the push send throws, the run ends with
that exception, it has made no call that writes to the store, and the store is
as it was: no device deleted, `lastSent` unchanged. -/
theorem failure_leaves_store (env : Env) (db : Store) (settings : Settings) (err : JSString)
    (hg : PassesGuards env db settings)
    (hfail : env.fetch (chatRequest env.numberToStringBig env.apiKey db.recipes) = .error err ∨
      env.fetch (chatRequest env.numberToStringBig env.apiKey db.recipes) = .ok (.error err) ∨
      ∃ data, env.fetch (chatRequest env.numberToStringBig env.apiKey db.recipes) = .ok (.ok data) ∧
        env.sendEachForMulticast
          (fcmPayload (notifBody (suggestion data)) (collectTokens db.fcm_tokens)) = .error err) :
    (sendDinnerSuggestion env db).outcome = .threw err ∧
    (sendDinnerSuggestion env db).store = db ∧
    (∀ e ∈ (sendDinnerSuggestion env db).trace, e.isWrite = false) := by
  rw [run_of_guards hg]
  unfold suggestAndSend
  rcases hfail with h | h | ⟨data, h, hsend⟩
  · simp [h, Event.isWrite]
  · simp [h, Event.isWrite]
  · simp [h, hsend, Event.isWrite]

theorem failure_leaves_store_witness :
    (sendDinnerSuggestion { sampleEnv with sendEachForMulticast := fun _ => .error (js "unavailable") }
        sampleStore).outcome = .threw (js "unavailable") ∧
    (sendDinnerSuggestion { sampleEnv with sendEachForMulticast := fun _ => .error (js "unavailable") }
        sampleStore).store = sampleStore :=
  have h := failure_leaves_store
    { sampleEnv with sendEachForMulticast := fun _ => .error (js "unavailable") } sampleStore
    { enabled := true, hour := 17, lastSent := none } (js "unavailable") sampleGuards
    (Or.inr (Or.inr ⟨_, rfl, rfl⟩))
  ⟨h.1, h.2.1⟩

theorem done_inv {env : Env} {db : Store} (h : (sendDinnerSuggestion env db).outcome = .done) :
    ∃ settings data responses, PassesGuards env db settings ∧
      env.fetch (chatRequest env.numberToStringBig env.apiKey db.recipes) = .ok (.ok data) ∧
      env.sendEachForMulticast
        (fcmPayload (notifBody (suggestion data)) (collectTokens db.fcm_tokens)) = .ok responses ∧
      sendDinnerSuggestion env db =
        afterSend env db settings (collectTokens db.fcm_tokens)
          [.settingsGet, .tokensGet, .recipesGet, .fetch (chatRequest env.numberToStringBig env.apiKey db.recipes),
            .send (fcmPayload (notifBody (suggestion data)) (collectTokens db.fcm_tokens))]
          responses := by
  have hguards : ∃ settings, PassesGuards env db settings := by
    unfold sendDinnerSuggestion at h
    cases hs : db.settings with
    | none => simp [hs] at h
    | some settings =>
      refine ⟨settings, ?_⟩
      simp only [hs] at h
      split_ifs at h with h1 h2 h3 h4 h5 h6
      refine ⟨hs, by simpa using h1, by simpa using h2, h3, ?_, ?_⟩
      · intro hnil
        exact h5 (by simp [hnil])
      · intro hnil
        exact h6 (by simp [hnil])
  obtain ⟨settings, hg⟩ := hguards
  rw [run_of_guards hg] at h ⊢
  unfold suggestAndSend at h ⊢
  cases hf : env.fetch (chatRequest env.numberToStringBig env.apiKey db.recipes) with
  | error err => simp [hf] at h
  | ok parsed =>
    cases parsed with
    | error err => simp [hf] at h
    | ok data =>
      cases hsend : env.sendEachForMulticast
          (fcmPayload (notifBody (suggestion data)) (collectTokens db.fcm_tokens)) with
      | error err => simp [hf, hsend] at h
      | ok responses => exact ⟨settings, data, responses, hg, rfl, hsend, by simp [hf, hsend]⟩

/-- C2. After a run that went through to the final update of `lastSent`, any
run started from the store it left, at a time of the same New York calendar
date (whatever the hour and whatever the services would answer), reads the
settings and stops: no chat call, no push send, no write, store unchanged. The
first run sent one multicast, the second none. -/
theorem second_run_same_day_noop (env₁ env₂ : Env) (db : Store)
    (hdone : (sendDinnerSuggestion env₁ db).outcome = .done)
    (hday : env₂.todayStr = env₁.todayStr) :
    (sendDinnerSuggestion env₂ (sendDinnerSuggestion env₁ db).store).trace = [Event.settingsGet] ∧
    (sendDinnerSuggestion env₂ (sendDinnerSuggestion env₁ db).store).store =
      (sendDinnerSuggestion env₁ db).store ∧
    (∃ why, (sendDinnerSuggestion env₂ (sendDinnerSuggestion env₁ db).store).outcome =
      .skipped why) ∧
    (∀ e ∈ (sendDinnerSuggestion env₂ (sendDinnerSuggestion env₁ db).store).trace,
      e.isWrite = false ∧ e.isOutbound = false) ∧
    ((sendDinnerSuggestion env₁ db).trace.filter Event.isSend).length = 1 ∧
    ((sendDinnerSuggestion env₂ (sendDinnerSuggestion env₁ db).store).trace.filter
      Event.isSend).length = 0 := by
  obtain ⟨settings, data, responses, _, _, _, hrun⟩ := done_inv hdone
  have hset : (sendDinnerSuggestion env₁ db).store.settings =
      some { settings with lastSent := some env₁.todayStr } := by
    rw [hrun]
    exact afterSend_settings _ _ _ _ _ _
  have h2 := skip_of_guard env₂ (sendDinnerSuggestion env₁ db).store _ hset
    (Or.inr (Or.inr (by rw [hday])))
  refine ⟨h2.1, h2.2.1, h2.2.2, settingsGet_only h2.1, ?_, ?_⟩
  · rw [hrun, afterSend_sends]
    simp [Event.isSend]
  · rw [h2.1]
    rfl

theorem second_run_same_day_noop_witness :
    (sendDinnerSuggestion sampleEnv sampleStore).outcome = .done ∧
    (sendDinnerSuggestion { sampleEnv with currentHour := 18 }
      (sendDinnerSuggestion sampleEnv sampleStore).store).trace = [Event.settingsGet] ∧
    (sendDinnerSuggestion sampleEnv (sendDinnerSuggestion sampleEnv sampleStore).store).trace =
      [Event.settingsGet] :=
  ⟨by decide,
   (second_run_same_day_noop sampleEnv { sampleEnv with currentHour := 18 } sampleStore
      (by decide) rfl).1,
   (second_run_same_day_noop sampleEnv sampleEnv sampleStore (by decide) rfl).1⟩

/-! ## Pruning of dead tokens -/

theorem isStale_iff (resp : SendResponse) :
    isStale resp = true ↔
      resp.success = false ∧
        (resp.errorCode = some (js "messaging/invalid-registration-token") ∨
         resp.errorCode = some (js "messaging/registration-token-not-registered")) := by
  unfold isStale
  cases resp.success <;> simp

theorem mem_staleFrom (docs : List Device) (tokens : List JSString) (uid : JSString) :
    ∀ (responses : List SendResponse) (k : Nat),
      uid ∈ staleFrom docs tokens k responses ↔
        ∃ i resp, responses[i]? = some resp ∧ isStale resp = true ∧
          ∃ d ∈ docs, d.id = uid ∧ d.token = tokens[k + i]? := by
  intro responses
  induction responses with
  | nil => intro k; simp [staleFrom]
  | cons r rest ih =>
    intro k
    unfold staleFrom
    rw [List.mem_append, ih (k + 1)]
    constructor
    · rintro (h | ⟨i, resp, hi, hst, d, hd, hid, htok⟩)
      · by_cases hr : isStale r = true
        · rw [if_pos hr] at h
          obtain ⟨d, hd, hid⟩ := List.mem_map.mp h
          rw [List.mem_filter] at hd
          exact ⟨0, r, by simp, hr, d, hd.1, hid, by simpa using hd.2⟩
        · rw [if_neg hr] at h
          simp at h
      · refine ⟨i + 1, resp, by simpa using hi, hst, d, hd, hid, ?_⟩
        rw [htok]
        congr 1
        omega
    · rintro ⟨i, resp, hi, hst, d, hd, hid, htok⟩
      cases i with
      | zero =>
        left
        simp only [List.getElem?_cons_zero, Option.some.injEq] at hi
        subst hi
        rw [if_pos hst]
        exact List.mem_map.mpr ⟨d, List.mem_filter.mpr ⟨hd, by simpa using htok⟩, hid⟩
      | succ j =>
        right
        refine ⟨j, resp, by simpa using hi, hst, d, hd, hid, ?_⟩
        rw [htok]
        congr 1
        omega

theorem mem_deleteDocs (docs : List Device) (uids : List JSString) (d : Device) :
    d ∈ deleteDocs docs uids ↔ d ∈ docs ∧ d.id ∉ uids := by
  simp [deleteDocs, List.mem_filter]

/-- C4, as stated, fails: with two records u1, u2 that hold the same token and
the results success, then not-registered, the delivery of index 0 (the entry
collected from u1) succeeded, yet the run deletes u1 along with u2, because
records are matched by token. -/
theorem shared_token_deletes_delivered_record :
    PassesGuards sharedTokenEnv sharedTokenStore { enabled := true, hour := 17, lastSent := none } ∧
    (sharedTokenStore.fcm_tokens.map (·.id)).Nodup ∧
    sharedTokenStore.fcm_tokens[0]? = some { id := js "u1", token := some (js "T") } ∧
    collectTokens sharedTokenStore.fcm_tokens = [js "T", js "T"] ∧
    sharedTokenEnv.sendEachForMulticast
        (fcmPayload (notifBody (js "Tacos tonight.")) [js "T", js "T"]) =
      .ok [ { success := true, errorCode := none },
            { success := false,
              errorCode := some (js "messaging/registration-token-not-registered") } ] ∧
    (sendDinnerSuggestion sharedTokenEnv sharedTokenStore).outcome = .done ∧
    { id := js "u1", token := some (js "T") } ∉
      (sendDinnerSuggestion sharedTokenEnv sharedTokenStore).store.fcm_tokens ∧
    (sendDinnerSuggestion sharedTokenEnv sharedTokenStore).store.fcm_tokens = [] := by
  refine ⟨⟨rfl, rfl, rfl, ?_, ?_, ?_⟩, ?_, ?_, ?_, rfl, ?_, ?_, ?_⟩ <;> decide

theorem afterSend_deleted_iff (env : Env) (db : Store) (settings : Settings)
    (sofar : List Event) (responses : List SendResponse)
    (hlen : responses.length = (collectTokens db.fcm_tokens).length)
    (hnodup : (db.fcm_tokens.map (·.id)).Nodup) :
    ∀ d ∈ db.fcm_tokens,
      d ∉ (afterSend env db settings (collectTokens db.fcm_tokens) sofar responses).store.fcm_tokens ↔
        ∃ (i : Nat) (token : JSString) (resp : SendResponse),
          (collectTokens db.fcm_tokens)[i]? = some token ∧
          responses[i]? = some resp ∧ d.token = some token ∧ resp.success = false ∧
          (resp.errorCode = some (js "messaging/invalid-registration-token") ∨
           resp.errorCode = some (js "messaging/registration-token-not-registered")) := by
  intro d hd
  rw [afterSend_devices, mem_deleteDocs]
  unfold staleUids
  constructor
  · intro hnot
    have hmem : d.id ∈ staleFrom db.fcm_tokens (collectTokens db.fcm_tokens) 0 responses := by
      by_contra hc
      exact hnot ⟨hd, hc⟩
    obtain ⟨i, resp, hi, hst, d', hd', hid, htok⟩ := (mem_staleFrom _ _ _ _ _).mp hmem
    have hdd : d' = d := List.inj_on_of_nodup_map hnodup hd' hd hid
    subst hdd
    have hilt : i < (collectTokens db.fcm_tokens).length := by
      rw [← hlen]
      exact (List.getElem?_eq_some_iff.mp hi).1
    rw [Nat.zero_add, List.getElem?_eq_getElem hilt] at htok
    exact ⟨i, _, resp, List.getElem?_eq_getElem hilt, hi, htok, (isStale_iff resp).mp hst⟩
  · rintro ⟨i, token, resp, hti, hri, htok, hfail⟩ ⟨_, hnotin⟩
    apply hnotin
    refine (mem_staleFrom _ _ _ _ _).mpr
      ⟨i, resp, hri, (isStale_iff resp).mpr hfail, d, hd, rfl, ?_⟩
    rw [Nat.zero_add, hti, htok]

/-- C4, amended. In a run that passes the guards and reaches the push service,
with one result per collected token: the run ends normally; a device record is
removed exactly when its token is the token of some delivery that failed with
the code `messaging/invalid-registration-token` or
`messaging/registration-token-not-registered`, so a record whose token had only
successes or failures with other codes stays; when no two collected tokens are
equal, a record is removed exactly when the delivery to its own token failed
with one of the two codes; nothing else enters the collection; and `lastSent`
is set to today, by a settings update that the run always issues. For tokens
T1, T2, T3 with T2 reported unregistered, exactly the record of T2 goes and
`lastSent` is today. -/
theorem stale_tokens_pruned :
    (∀ (env : Env) (db : Store) (settings : Settings) (data : ChatResponse)
        (responses : List SendResponse),
      PassesGuards env db settings →
      env.fetch (chatRequest env.numberToStringBig env.apiKey db.recipes) = .ok (.ok data) →
      env.sendEachForMulticast
        (fcmPayload (notifBody (suggestion data)) (collectTokens db.fcm_tokens)) = .ok responses →
      responses.length = (collectTokens db.fcm_tokens).length →
      (db.fcm_tokens.map (·.id)).Nodup →
      (sendDinnerSuggestion env db).outcome = .done ∧
      (∀ d ∈ db.fcm_tokens,
        d ∉ (sendDinnerSuggestion env db).store.fcm_tokens ↔
          ∃ (i : Nat) (token : JSString) (resp : SendResponse),
            (collectTokens db.fcm_tokens)[i]? = some token ∧
            responses[i]? = some resp ∧ d.token = some token ∧ resp.success = false ∧
            (resp.errorCode = some (js "messaging/invalid-registration-token") ∨
             resp.errorCode = some (js "messaging/registration-token-not-registered"))) ∧
      ((collectTokens db.fcm_tokens).Nodup →
        ∀ d ∈ db.fcm_tokens, ∀ (i : Nat) (token : JSString) (resp : SendResponse),
          (collectTokens db.fcm_tokens)[i]? = some token → d.token = some token →
          responses[i]? = some resp →
          (d ∉ (sendDinnerSuggestion env db).store.fcm_tokens ↔
            resp.success = false ∧
            (resp.errorCode = some (js "messaging/invalid-registration-token") ∨
             resp.errorCode = some (js "messaging/registration-token-not-registered")))) ∧
      (∀ d ∈ (sendDinnerSuggestion env db).store.fcm_tokens, d ∈ db.fcm_tokens) ∧
      (sendDinnerSuggestion env db).store.settings =
        some { settings with lastSent := some env.todayStr } ∧
      Event.settingsUpdate env.todayStr ∈ (sendDinnerSuggestion env db).trace) ∧
    ((sendDinnerSuggestion sampleEnv sampleStore).store.fcm_tokens =
        [ { id := js "u1", token := some (js "T1") }, { id := js "u3", token := some (js "T3") } ] ∧
      (sendDinnerSuggestion sampleEnv sampleStore).store.settings =
        some { enabled := true, hour := 17, lastSent := some (js "2025-03-01") }) := by
  refine ⟨?_, by decide, by decide⟩
  intro env db settings data responses hg hf hsend hlen hnodup
  have hrun : sendDinnerSuggestion env db =
      afterSend env db settings (collectTokens db.fcm_tokens)
        [.settingsGet, .tokensGet, .recipesGet,
          .fetch (chatRequest env.numberToStringBig env.apiKey db.recipes),
          .send (fcmPayload (notifBody (suggestion data)) (collectTokens db.fcm_tokens))]
        responses := by
    rw [run_of_guards hg]
    unfold suggestAndSend
    simp [hf, hsend]
  rw [hrun]
  have hiff := afterSend_deleted_iff env db settings
    [.settingsGet, .tokensGet, .recipesGet,
      .fetch (chatRequest env.numberToStringBig env.apiKey db.recipes),
      .send (fcmPayload (notifBody (suggestion data)) (collectTokens db.fcm_tokens))]
    responses hlen hnodup
  refine ⟨afterSend_outcome _ _ _ _ _ _, hiff, ?_, ?_, afterSend_settings _ _ _ _ _ _, ?_⟩
  · intro htokens d hd i token resp hti htok hri
    rw [hiff d hd]
    constructor
    · rintro ⟨j, token', resp', htj, hrj, htok', hfail⟩
      have htt : token' = token := by
        rw [htok] at htok'
        exact (Option.some.inj htok').symm
      subst htt
      have hjlt : j < (collectTokens db.fcm_tokens).length :=
        (List.getElem?_eq_some_iff.mp htj).1
      have hji : j = i := List.getElem?_inj hjlt htokens (htj.trans hti.symm)
      subst hji
      rw [hri] at hrj
      cases hrj
      exact hfail
    · intro hfail
      exact ⟨i, token, resp, hti, hri, htok, hfail⟩
  · intro d hd
    rw [afterSend_devices, mem_deleteDocs] at hd
    exact hd.1
  · by_cases h : (staleUids db.fcm_tokens (collectTokens db.fcm_tokens) responses).length > 0 <;>
      simp [afterSend, h]

theorem stale_tokens_pruned_witness :
    (sendDinnerSuggestion sampleEnv sampleStore).outcome = .done ∧
    Event.settingsUpdate (js "2025-03-01") ∈ (sendDinnerSuggestion sampleEnv sampleStore).trace :=
  have h := stale_tokens_pruned.1 sampleEnv sampleStore
    { enabled := true, hour := 17, lastSent := none } _ _ sampleGuards rfl rfl (by decide) (by decide)
  ⟨h.1, h.2.2.2.2.2⟩

/-! ## The proxy -/

theorem isPreflight_post : isPreflight (js "POST") = false := by decide

/-- C9, as stated, fails: OPTIONS is not POST, and an OPTIONS request is answered
with status 204 and no body, by the CORS layer, not with 405 and an error. -/
theorem claudeProxy_options_gets_204 :
    js "OPTIONS" ≠ js "POST" ∧
    (claudeProxy sampleProxyEnv { method := js "OPTIONS", body := none }).status = 204 ∧
    (claudeProxy sampleProxyEnv { method := js "OPTIONS", body := none }).body = .empty ∧
    (claudeProxy sampleProxyEnv { method := js "OPTIONS", body := none }).status ≠ 405 ∧
    (∀ message, (claudeProxy sampleProxyEnv { method := js "OPTIONS", body := none }).body ≠
      .error message) := by
  refine ⟨by decide, by decide, by decide, by decide, ?_⟩
  intro message h
  have hbody : (claudeProxy sampleProxyEnv { method := js "OPTIONS", body := none }).body =
      .empty := by decide
  rw [hbody] at h
  cases h

/-- C9, amended. A request whose method is not POST is never sent upstream; when
it is not a preflight request (its method is not OPTIONS, in any letter case)
it is answered with status 405 and the error body `Method not allowed`; a
preflight request is answered with status 204 and no body. GET is not a
preflight request, OPTIONS is. -/
theorem claudeProxy_rejects_non_post {J : Type} (env : ProxyEnv J) (req : ProxyRequest J)
    (h : req.method ≠ js "POST") :
    (claudeProxy env req).forwarded = [] ∧
    (isPreflight req.method = false →
      (claudeProxy env req).status = 405 ∧
      (claudeProxy env req).body = .error (js "Method not allowed")) ∧
    (isPreflight req.method = true →
      (claudeProxy env req).status = 204 ∧ (claudeProxy env req).body = .empty) ∧
    (isPreflight req.method = true → req.method.length = 7) ∧
    isPreflight (js "GET") = false ∧ isPreflight (js "OPTIONS") = true := by
  refine ⟨?_, ?_, ?_, ?_, by decide, by decide⟩
  · unfold claudeProxy claudeProxyHandler
    by_cases hp : isPreflight req.method = true
    · simp [hp]
    · simp [hp, h]
  · intro hp
    unfold claudeProxy claudeProxyHandler
    simp [hp, h]
  · intro hp
    unfold claudeProxy
    simp [hp]
  · intro hp
    unfold isPreflight at hp
    have hlen := congrArg List.length (beq_iff_eq.mp hp)
    rw [List.length_map] at hlen
    rw [hlen]
    decide

theorem claudeProxy_rejects_non_post_witness :
    js "GET" ≠ js "POST" ∧
    (claudeProxy sampleProxyEnv { method := js "GET", body := none }).status = 405 ∧
    (claudeProxy sampleProxyEnv { method := js "GET", body := none }).body =
      .error (js "Method not allowed") ∧
    (claudeProxy sampleProxyEnv { method := js "GET", body := none }).forwarded = [] :=
  have h := claudeProxy_rejects_non_post sampleProxyEnv { method := js "GET", body := none }
    (by decide)
  ⟨by decide, (h.2.1 (by decide)).1, (h.2.1 (by decide)).2, h.1⟩

/-- C10. For a POST request: when the upstream call throws, on the network or
while its answer is parsed as JSON, the proxy answers with status 500 and the
message of the exception as `error`; when nothing throws it answers with status
200 and the upstream JSON, after exactly one upstream request that carries the
fields of the body as received; and a request without a body throws before
anything is sent, answered with 500 and the message of that exception. -/
theorem claudeProxy_post {J : Type} (env : ProxyEnv J) (req : ProxyRequest J)
    (hm : req.method = js "POST") :
    (∀ payload err, req.body = some payload →
      (env.fetch (forward env payload) = .error err ∨
        env.fetch (forward env payload) = .ok (.error err)) →
      (claudeProxy env req).status = 500 ∧ (claudeProxy env req).body = .error err) ∧
    (∀ payload data, req.body = some payload →
      env.fetch (forward env payload) = .ok (.ok data) →
      (claudeProxy env req).status = 200 ∧ (claudeProxy env req).body = .data data) ∧
    (∀ payload, req.body = some payload →
      (claudeProxy env req).forwarded = [forward env payload] ∧
      (forward env payload).body = payload) ∧
    (req.body = none →
      (claudeProxy env req).status = 500 ∧
      (claudeProxy env req).body = .error env.destructureMessage ∧
      (claudeProxy env req).forwarded = []) := by
  unfold claudeProxy claudeProxyHandler
  simp only [hm, isPreflight_post, Bool.false_eq_true, ne_eq, not_true_eq_false, if_false]
  refine ⟨?_, ?_, ?_, ?_⟩
  · rintro payload err hb (h | h) <;> simp [hb, h]
  · intro payload data hb h
    simp [hb, h]
  · intro payload hb
    refine ⟨?_, rfl⟩
    simp only [hb]
    cases h : env.fetch (forward env payload) with
    | error err => rfl
    | ok parsed => cases parsed <;> rfl
  · intro hb
    simp [hb]

theorem claudeProxy_post_witness :
    (claudeProxy sampleProxyEnv
        { method := js "POST", body := some ⟨some 1, some 2, none, some 3⟩ }).status = 500 ∧
    (claudeProxy { sampleProxyEnv with fetch := fun _ => .ok (.ok 7) }
        { method := js "POST", body := some ⟨some 1, some 2, none, some 3⟩ }).status = 200 ∧
    (claudeProxy sampleProxyEnv { method := js "POST", body := none }).status = 500 :=
  ⟨((claudeProxy_post sampleProxyEnv
        { method := js "POST", body := some ⟨some 1, some 2, none, some 3⟩ } rfl).1
      _ (js "fetch failed") rfl (Or.inl rfl)).1,
   ((claudeProxy_post { sampleProxyEnv with fetch := fun _ => .ok (.ok 7) }
        { method := js "POST", body := some ⟨some 1, some 2, none, some 3⟩ } rfl).2.1
      _ 7 rfl rfl).1,
   ((claudeProxy_post sampleProxyEnv { method := js "POST", body := none } rfl).2.2.2 rfl).1⟩

end Cmlb
